import Mathlib

/-!
Shallow embedding of the LifeEngineOptimized simulation core
(src/simulation/src/lib.rs and src/simulation/src/organism.rs).

Modelling conventions:
* Rust `u32` values are modelled as `Nat`; the `as u32` cast of an `i32`
  is modelled by `u32ofInt` (reduction mod 2^32), and the `as i32` cast of
  a `u32` by `i32ofU32`, so the wrap-around behaviour of coordinates such
  as `(self.x as i32 + dx) as u32` is preserved.
* Every call of the ambient RNG (`rand::random::<f32>()`,
  `thread_rng().gen_range(..)`, `gen_bool(0.5)`, `Direction::random()`) is
  modelled as a draw from an explicit oracle stream `Rng := List Nat`
  threaded through the functions; an exhausted stream yields 0.  An `f32`
  threshold test such as `random::<f32>() < p` (with `0 < p < 1`) is
  modelled as a Boolean draw giving the outcome of the comparison, since
  only the branch outcome is ever used by the code.
* `Vec` indexing that Rust performs after an explicit bounds check is
  modelled with `List.getD`; for well-formed grids (`cells.length =
  width * height`) this agrees with the source.
* `HashMap` iteration in `process_killer_cells` is modelled by an
  association list in insertion order; the applied effect is independent
  of iteration order because distinct entries update distinct registry
  indices.
-/

/-- Reduction of an `i32`-valued expression cast `as u32` (two's complement wrap). -/
def u32ofInt (i : Int) : Nat := (i % (2 ^ 32 : Int)).toNat

/-- Reinterpretation of a `u32` value `as i32` (two's complement). -/
def i32ofU32 (n : Nat) : Int := if n < 2 ^ 31 then (n : Int) else (n : Int) - 2 ^ 32

/-- Model of `(c).max(0).min(w as i32 - 1) as u32`, the neighbour-coordinate
clamp used throughout the pipeline. -/
def clampU (w : Nat) (c : Int) : Nat := (min (max c 0) ((w : Int) - 1)).toNat

/-- Model of `(c).max(0) as u32` (clamp below only). -/
def maxZeroU (c : Int) : Nat := (max c 0).toNat

/-- Oracle stream standing in for the ambient thread RNG. -/
def Rng : Type := List Nat

/-- Pop one raw draw from the oracle; an exhausted stream yields 0. -/
def drawNat : Rng → Nat × Rng
  | List.nil => (0, List.nil)
  | List.cons n r => (n, r)

/-- Model of `gen_range(lo..hi)` for `lo < hi`. -/
def drawRange (lo hi : Nat) (g : Rng) : Nat × Rng :=
  let p := drawNat g
  (lo + p.1 % (hi - lo), p.2)

/-- Model of `gen_range(lo..hi)` over `i32` (used with negative bounds). -/
def drawRangeInt (lo hi : Int) (g : Rng) : Int × Rng :=
  let p := drawNat g
  (lo + (p.1 : Int) % (hi - lo), p.2)

/-- Model of `gen_bool(0.5)` and of `random::<f32>() < p` threshold tests:
the draw supplies the branch outcome. -/
def drawBool (g : Rng) : Bool × Rng :=
  let p := drawNat g
  (p.1 % 2 == 1, p.2)

/-- Apply `f` to the element at index `n`, as Rust mutation through an index. -/
def listModify {α : Type} (f : α → α) : Nat → List α → List α
  | _, List.nil => List.nil
  | 0, List.cons a as => List.cons (f a) as
  | Nat.succ n, List.cons a as => List.cons a (listModify f n as)

/-- Model of `Vec::swap(i, j)` for in-range indices. -/
def listSwap {α : Type} [Inhabited α] (l : List α) (i j : Nat) : List α :=
  if i < l.length ∧ j < l.length then
    (l.set i (l.getD j default)).set j (l.getD i default)
  else l

/-- Different types of cells in the simulation (`CellState` in lib.rs,
also referred to as `CellStates` in organism.rs). -/
inductive CellState : Type
  | Empty
  | Food
  | Wall
  | Mouth
  | Producer
  | Mover
  | Killer
  | Armor
  | Eye
deriving DecidableEq, Repr, Inhabited

/-- Convert a cell state to a color representation (`CellState::to_color`). -/
def CellState.to_color : CellState → Nat
  | CellState.Empty => 0x0E1318
  | CellState.Food => 0x2F7AB7
  | CellState.Wall => 0x808080
  | CellState.Mouth => 0xDEB14D
  | CellState.Producer => 0x15DE59
  | CellState.Mover => 0x60D4FF
  | CellState.Killer => 0xF82380
  | CellState.Armor => 0x7230DB
  | CellState.Eye => 0xB6C1EA

/-- Cell in the grid, includes state and owner. -/
structure Cell : Type where
  state : CellState
  owner : Option Nat
deriving DecidableEq, Repr, Inhabited

/-- Direction for movement and facing. -/
inductive Direction : Type
  | Up
  | Right
  | Down
  | Left
deriving DecidableEq, Repr, Inhabited

/-- Model of `Direction::random()`: one `gen_range(0..4)` draw. -/
def Direction.rand (g : Rng) : Direction × Rng :=
  let p := drawRange 0 4 g
  (match p.1 with
   | 0 => Direction.Up
   | 1 => Direction.Right
   | 2 => Direction.Down
   | _ => Direction.Left, p.2)

/-- Convert direction to movement delta (dx, dy) (`Direction::to_delta`). -/
def Direction.to_delta : Direction → Int × Int
  | Direction.Up => (0, -1)
  | Direction.Right => (1, 0)
  | Direction.Down => (0, 1)
  | Direction.Left => (-1, 0)

/-- A cell in an organism, with its state and relative position to the organism center. -/
structure OrganismCell : Type where
  state : CellState
  x : Int
  y : Int
  direction : Option Direction
deriving DecidableEq, Repr, Inhabited

/-- Get the rotated position of this cell (`OrganismCell::get_rotated_position`). -/
def OrganismCell.get_rotated_position (c : OrganismCell) : Direction → Int × Int
  | Direction.Up => (c.x, c.y)
  | Direction.Right => (c.y, -c.x)
  | Direction.Down => (-c.x, -c.y)
  | Direction.Left => (-c.y, c.x)

/-- Represents a collection of cells that form a living organism. -/
structure Organism : Type where
  id : Nat
  x : Nat
  y : Nat
  rotation : Direction
  move_direction : Direction
  cells : List OrganismCell
  food_collected : Nat
  health : Nat
  lifetime : Nat
  mutability : Nat
  move_range : Nat
  move_counter : Nat
  is_alive : Bool
deriving DecidableEq, Repr, Inhabited

/-- Get the absolute position of a cell in the grid
(`Organism::get_cell_position`): `((self.x as i32 + dx) as u32, ...)`. -/
def Organism.get_cell_position (o : Organism) (c : OrganismCell) : Nat × Nat :=
  let d := c.get_rotated_position o.rotation
  (u32ofInt (i32ofU32 o.x + d.1), u32ofInt (i32ofU32 o.y + d.2))

/-- Check if this organism has mover cells (`Organism::has_movers`). -/
def Organism.has_movers (o : Organism) : Bool :=
  o.cells.any fun c => c.state = CellState.Mover

/-- Get the amount of food needed to reproduce (`Organism::food_needed_to_reproduce`). -/
def Organism.food_needed_to_reproduce (o : Organism) : Nat :=
  if o.has_movers then o.cells.length + 1 else o.cells.length

/-- Get the maximum lifespan of this organism (`Organism::max_lifespan`):
`(cells.len() * lifespan_multiplier).max(1)`. -/
def Organism.max_lifespan (o : Organism) (lifespan_multiplier : Nat) : Nat :=
  max (o.cells.length * lifespan_multiplier) 1

/-- Reduce health when harmed (`Organism::harm`). -/
def Organism.harm (o : Organism) : Organism :=
  let o1 := if o.health > 0 then { o with health := o.health - 1 } else o
  if o1.health = 0 then { o1 with is_alive := false } else o1

/-- Birth distance from maximum body extent plus a buffer
(`Organism::calculate_birth_distance`). -/
def Organism.calculate_birth_distance (o : Organism) : Int :=
  ((o.cells.foldl (fun m c => max m (max c.x.natAbs c.y.natAbs)) 0 : Nat) : Int) + 3

/-- Model of `random_cell_state()`: `gen_range(0..6)` mapped to a non-environment state. -/
def randCellStateOf (n : Nat) : CellState :=
  match n % 6 with
  | 0 => CellState.Mouth
  | 1 => CellState.Producer
  | 2 => CellState.Mover
  | 3 => CellState.Killer
  | 4 => CellState.Armor
  | _ => CellState.Eye

/-- Model of the retry loop `while new_state == cur { new_state = random_cell_state() }`:
pop draws until one differs; an exhausted stream falls back to a fixed
different state (the real loop only terminates on such a draw). -/
def drawStateNe (cur : CellState) : Rng → CellState × Rng
  | List.nil =>
      ((if cur = CellState.Mouth then CellState.Producer else CellState.Mouth), List.nil)
  | List.cons n r =>
      let s := randCellStateOf n
      if s = cur then drawStateNe cur r else (s, r)

/-- Mutate this organism by adding, changing, or removing a cell
(`Organism::mutate`).  The add branch of the source is an empty stub (its
body is a comment), so it only consumes its probability draw. -/
def Organism.mutate (o : Organism) (rng : Rng) : Organism × Rng :=
  let pAdd := drawBool rng
  let pCh := drawBool pAdd.2
  let step1 :=
    if pCh.1 ∧ o.cells.length > 1 then
      let pIdx := drawRange 1 o.cells.length pCh.2
      let cur := (o.cells.getD pIdx.1 default).state
      let pSt := drawStateNe cur pIdx.2
      ({ o with cells := listModify (fun c => { c with state := pSt.1 }) pIdx.1 o.cells }, pSt.2)
    else (o, pCh.2)
  let o1 := step1.1
  let pRm := drawBool step1.2
  if pRm.1 ∧ o1.cells.length > 1 then
    let pIdx := drawRange 1 o1.cells.length pRm.2
    let c := o1.cells.getD pIdx.1 default
    if c.x ≠ 0 ∨ c.y ≠ 0 then
      ({ o1 with cells := o1.cells.eraseIdx pIdx.1 }, pIdx.2)
    else (o1, pIdx.2)
  else (o1, pRm.2)

/-- Create a new organism from a parent, with possible mutations
(`Organism::new_from_parent`).  Note the source constructs the offspring
with `health: 0` and never recomputes it from the cell count. -/
def Organism.new_from_parent (id : Nat) (x y : Nat) (parent : Organism) (rng : Rng) :
    Organism × Rng :=
  let pRot := Direction.rand rng
  let pMv := Direction.rand pRot.2
  let o : Organism :=
    { id := id, x := x, y := y, rotation := pRot.1, move_direction := pMv.1,
      cells := parent.cells, food_collected := 0, health := 0, lifetime := 0,
      mutability := parent.mutability, move_range := parent.move_range,
      move_counter := 0, is_alive := true }
  let pRoll := drawRange 0 100 pMv.2
  if pRoll.1 < o.mutability then
    let pm := o.mutate pRoll.2
    let pRoll2 := drawRange 0 100 pm.2
    let step2 :=
      if pRoll2.1 < 10 then
        let pd := drawRangeInt (-2) 3 pRoll2.2
        ({ pm.1 with move_range := maxZeroU (max ((pm.1.move_range : Int) + pd.1) 1) }, pd.2)
      else (pm.1, pRoll2.2)
    let pRoll3 := drawRange 0 100 step2.2
    if pRoll3.1 < 10 then
      let pd := drawRangeInt (-1) 2 pRoll3.2
      ({ step2.1 with
          mutability := (min (max ((step2.1.mutability : Int) + pd.1) 1) 100).toNat }, pd.2)
    else (step2.1, pRoll3.2)
  else (o, pRoll.2)

/-- The eight candidate birth directions of `Organism::try_reproduce`, in
declaration order. -/
def reproduceDirections : List (Int × Int) :=
  [(0, -1), (1, 0), (0, 1), (-1, 0), (1, -1), (1, 1), (-1, 1), (-1, -1)]

/-- The manual Fisher-Yates-like pass of `try_reproduce`:
`for i in 0..len { let j = gen_range(0..len); v.swap(i, j) }`. -/
def shuffleList {α : Type} [Inhabited α] (l : List α) (rng : Rng) : List α × Rng :=
  (List.range l.length).foldl
    (fun (p : List α × Rng) i =>
      let pj := drawRange 0 l.length p.2
      (listSwap p.1 i pj.1, pj.2))
    (l, rng)

/-- Rotation bias of `try_reproduce` towards the birth direction. -/
def birthRotation (dx dy : Int) : Direction :=
  if dx = 0 ∧ dy = -1 then Direction.Up
  else if dx = 1 ∧ dy = 0 then Direction.Right
  else if dx = 0 ∧ dy = 1 then Direction.Down
  else if dx = -1 ∧ dy = 0 then Direction.Left
  else if dx = 1 ∧ dy = -1 then Direction.Up
  else if dx = 1 ∧ dy = 1 then Direction.Down
  else if dx = -1 ∧ dy = 1 then Direction.Down
  else Direction.Up

/-- Try to reproduce (`Organism::try_reproduce`).  Returns the optional
offspring, the (possibly food-debited) parent, and the RNG.  The source's
direction loop unconditionally returns on its first iteration, so only the
first shuffled direction is ever used. -/
def Organism.try_reproduce (o : Organism) (rng : Rng) : Option Organism × Organism × Rng :=
  if o.food_collected ≥ o.food_needed_to_reproduce then
    let o1 := { o with food_collected := o.food_collected - o.food_needed_to_reproduce }
    let ps := shuffleList reproduceDirections rng
    match ps.1 with
    | List.nil => (none, o1, ps.2)
    | List.cons d _ =>
      let bd := o1.calculate_birth_distance
      let pOff := drawRange 0 3 ps.2
      let offset_x := d.1 * (bd + (pOff.1 : Int))
      let offset_y := d.2 * (bd + (pOff.1 : Int))
      let new_x := maxZeroU (i32ofU32 o1.x + offset_x)
      let new_y := maxZeroU (i32ofU32 o1.y + offset_y)
      let pChild := Organism.new_from_parent 0 new_x new_y o1 pOff.2
      let pB1 := drawBool pChild.2
      if pB1.1 then
        (some { pChild.1 with rotation := o1.rotation }, o1, pB1.2)
      else
        let pB2 := drawBool pB1.2
        if pB2.1 then
          (some { pChild.1 with rotation := birthRotation d.1 d.2 }, o1, pB2.2)
        else
          let pR := Direction.rand pB2.2
          (some { pChild.1 with rotation := pR.1 }, o1, pR.2)
  else (none, o, rng)

/-- The 4-neighborhood offsets `[(0,1),(1,0),(0,-1),(-1,0)]` used by the
eating, combat, producer and feeding scans. -/
def adjacents : List (Int × Int) := [(0, 1), (1, 0), (0, -1), (-1, 0)]

/-- Try to move in the current direction (`Organism::try_move`).
Returns (moved?, updated organism, rng). -/
def Organism.try_move (o : Organism) (grid_width grid_height : Nat)
    (is_position_clear : Nat → Nat → Bool) (rng : Rng) : Bool × Organism × Rng :=
  if ¬ o.has_movers then (false, o, rng)
  else
    let d := o.move_direction.to_delta
    let new_x := clampU grid_width (i32ofU32 o.x + d.1)
    let new_y := clampU grid_height (i32ofU32 o.y + d.2)
    let can_move := o.cells.all fun cell =>
      let rd := cell.get_rotated_position o.rotation
      let cell_x := clampU grid_width (i32ofU32 new_x + rd.1)
      let cell_y := clampU grid_height (i32ofU32 new_y + rd.2)
      let cur := o.get_cell_position cell
      decide ((cell_x, cell_y) = cur) || is_position_clear cell_x cell_y
    if can_move then
      let o1 := { o with x := new_x, y := new_y, move_counter := o.move_counter + 1 }
      if o1.move_counter ≥ o1.move_range then
        let pD := Direction.rand rng
        (true, { o1 with move_direction := pD.1, move_counter := 0 }, pD.2)
      else (true, o1, rng)
    else
      let pB := drawBool rng
      if pB.1 then
        let pD := Direction.rand pB.2
        (false, { o with move_direction := pD.1, move_counter := 0 }, pD.2)
      else (false, o, pB.2)

/-- Try to rotate to a new orientation (`Organism::try_rotate`).
Returns (rotated?, updated organism, rng).  Note the source clamps the
candidate cell positions only below (`.max(0)`), unlike `try_move`. -/
def Organism.try_rotate (o : Organism)
    (is_position_clear : Nat → Nat → Bool) (rng : Rng) : Bool × Organism × Rng :=
  let pD := Direction.rand rng
  let new_rotation := pD.1
  let can_rotate := o.cells.all fun cell =>
    let rd := cell.get_rotated_position new_rotation
    let cell_x := maxZeroU (i32ofU32 o.x + rd.1)
    let cell_y := maxZeroU (i32ofU32 o.y + rd.2)
    let cur := o.get_cell_position cell
    decide ((cell_x, cell_y) = cur) || is_position_clear cell_x cell_y
  if can_rotate then (true, { o with rotation := new_rotation }, pD.2)
  else (false, o, pD.2)

/-- Update the organism for one time step (`Organism::update`). -/
def Organism.update (o : Organism) (grid_width grid_height : Nat)
    (is_position_clear : Nat → Nat → Bool) (food_at_position : Nat → Nat → Bool)
    (lifespan_multiplier : Nat) (rng : Rng) : Organism × Rng :=
  if ¬ o.is_alive then (o, rng)
  else
    let o1 := { o with lifetime := o.lifetime + 1 }
    if o1.lifetime ≥ o1.max_lifespan lifespan_multiplier then
      ({ o1 with is_alive := false }, rng)
    else
      let feed := o1.cells.foldl
        (fun n cell =>
          if cell.state = CellState.Mouth then
            let c := o1.get_cell_position cell
            n + adjacents.countP (fun d =>
              food_at_position (clampU grid_width (i32ofU32 c.1 + d.1))
                (clampU grid_height (i32ofU32 c.2 + d.2)))
          else n) 0
      let o2 := { o1 with food_collected := o1.food_collected + feed }
      if o2.has_movers then
        let pm := o2.try_move grid_width grid_height is_position_clear rng
        if pm.1 then (pm.2.1, pm.2.2)
        else
          let pr := pm.2.1.try_rotate is_position_clear pm.2.2
          (pr.2.1, pr.2.2)
      else (o2, rng)

/-- The core Grid business logic (`Grid` in lib.rs).  The `f32` field
`food_production_prob` is not represented: it is only ever used in
threshold comparisons against fresh random reals, which the RNG oracle
models directly (`drawBool`). -/
structure Grid : Type where
  width : Nat
  height : Nat
  pixels : List Nat
  cells : List Cell
  organisms : List Organism
  next_organism_id : Nat
  max_organisms : Nat
  lifespan_multiplier : Nat
  insta_kill : Bool
  food_blocks_reproduction : Bool
deriving DecidableEq, Repr, Inhabited

/-- Constructor defaults of `Grid::new` (the probability field is elided). -/
def Grid.new (width height : Nat) : Grid :=
  { width := width, height := height,
    pixels := List.replicate (width * height) 0,
    cells := List.replicate (width * height) { state := CellState.Empty, owner := none },
    organisms := List.nil, next_organism_id := 0, max_organisms := 1000,
    lifespan_multiplier := 100, insta_kill := false, food_blocks_reproduction := true }

/-- Direct tile read `self.cells[idx]` performed after a bounds check. -/
def Grid.cellAt (g : Grid) (x y : Nat) : Cell :=
  g.cells.getD (y * g.width + x) default

/-- Set a cell's state and owner (`Grid::set_cell`); writes the tile and its
derived color. -/
def Grid.set_cell (g : Grid) (x y : Nat) (state : CellState) (owner : Option Nat) : Grid :=
  if x < g.width ∧ y < g.height then
    let idx := y * g.width + x
    { g with cells := g.cells.set idx { state := state, owner := owner },
             pixels := g.pixels.set idx state.to_color }
  else g

/-- Get a reference to a cell at the specified coordinates (`Grid::get_cell`). -/
def Grid.get_cell (g : Grid) (x y : Nat) : Option Cell :=
  if x < g.width ∧ y < g.height then some (g.cellAt x y) else none

/-- Color read (`Grid::get_pixel`); out of bounds returns black. -/
def Grid.get_pixel (g : Grid) (x y : Nat) : Nat :=
  if x < g.width ∧ y < g.height then g.pixels.getD (y * g.width + x) 0 else 0x000000

/-- Check if a position is clear, i.e. empty or food (`Grid::is_position_clear`). -/
def Grid.is_position_clear (g : Grid) (x y : Nat) : Bool :=
  match g.get_cell x y with
  | some cell => cell.state = CellState.Empty ∨ cell.state = CellState.Food
  | none => false

/-- Check if a position has food (`Grid::has_food_at`). -/
def Grid.has_food_at (g : Grid) (x y : Nat) : Bool :=
  match g.get_cell x y with
  | some cell => cell.state = CellState.Food
  | none => false

/-- Placement validation (`Grid::is_position_clear_for_organism`).  Note the
source's second test lets `Food` pass regardless of
`food_blocks_reproduction`, so the flag never rejects anything. -/
def Grid.is_position_clear_for_organism (g : Grid) (organism : Organism) : Bool :=
  organism.cells.all fun cell =>
    let p := organism.get_cell_position cell
    if p.1 ≥ g.width ∨ p.2 ≥ g.height then false
    else
      let grid_cell := g.cellAt p.1 p.2
      if grid_cell.state = CellState.Food ∧ ¬ g.food_blocks_reproduction then true
      else ¬ (grid_cell.state ≠ CellState.Empty ∧ grid_cell.state ≠ CellState.Food)

/-- The cell-stamping loop of `add_organism`: every in-bounds body cell is
written to the grid with the organism as owner. -/
def placeCells (organism : Organism) (g : Grid) : Grid :=
  organism.cells.foldl
    (fun gg cell =>
      let p := organism.get_cell_position cell
      if p.1 < gg.width ∧ p.2 < gg.height then
        gg.set_cell p.1 p.2 cell.state (some organism.id)
      else gg) g

/-- Add a new organism to the grid (`Grid::add_organism`).  Returns the new
grid and the success flag. -/
def Grid.add_organism (g : Grid) (organism0 : Organism) : Grid × Bool :=
  if g.organisms.length ≥ g.max_organisms ∧ g.max_organisms > 0 then (g, false)
  else
    let organism :=
      if organism0.id = 0 then { organism0 with id := g.next_organism_id } else organism0
    let g1 :=
      if organism0.id = 0 then { g with next_organism_id := g.next_organism_id + 1 } else g
    let can_place := g1.is_position_clear_for_organism organism
    if can_place then
      let g2 := placeCells organism g1
      ({ g2 with organisms := g2.organisms ++ [organism] }, true)
    else (g1, false)

/-- Remove an organism from the grid, converting its footprint to food
(`Grid::remove_organism`). -/
def Grid.remove_organism (g : Grid) (org_id : Nat) : Grid :=
  match g.organisms.findIdx? (fun o => o.id = org_id) with
  | none => g
  | some index =>
    match g.organisms.get? index with
    | none => g
    | some organism =>
      let cells_to_food := organism.cells.filterMap fun cell =>
        let p := organism.get_cell_position cell
        if p.1 < g.width ∧ p.2 < g.height then some p else none
      let g1 := cells_to_food.foldl
        (fun gg (p : Nat × Nat) => gg.set_cell p.1 p.2 CellState.Food none) g
      { g1 with organisms := g1.organisms.eraseIdx index }

/-- Remove dead organisms (`Grid::remove_dead_organisms`). -/
def Grid.remove_dead_organisms (g : Grid) : Grid :=
  let dead_ids := (g.organisms.filter fun o => ¬ o.is_alive).map fun o => o.id
  dead_ids.foldl (fun gg id => gg.remove_organism id) g

/-- Loop body of the Bresenham sweep in `Grid::is_straight_path_clear`,
with explicit fuel (the loop moves at least one axis per iteration, so
`dx + dy + 1` iterations always suffice; exhausted fuel returns the loop's
normal-exit value). -/
def bresLoop (g : Grid) (x1 y1 x2 y2 dx dy sx sy : Int) :
    Nat → Int → Int → Int → Bool
  | 0, _, _, _ => true
  | Nat.succ fuel, err, x, y =>
    if x = x2 ∧ y = y2 then true
    else
      if (¬ (x = x1 ∧ y = y1) ∧ ¬ (x = x2 ∧ y = y2)) ∧
         (x < 0 ∨ y < 0 ∨ x ≥ (g.width : Int) ∨ y ≥ (g.height : Int) ∨
          ¬ g.is_position_clear x.toNat y.toNat) then false
      else
        let e2 := 2 * err
        let err1 := if e2 > -dy then err - dy else err
        let x1n := if e2 > -dy then x + sx else x
        let err2 := if e2 < dx then err1 + dx else err1
        let y1n := if e2 < dx then y + sy else y
        bresLoop g x1 y1 x2 y2 dx dy sx sy fuel err2 x1n y1n

/-- Straight-line path check between parent and offspring anchors
(`Grid::is_straight_path_clear`). -/
def Grid.is_straight_path_clear (g : Grid) (x1 y1 x2 y2 : Nat) : Bool :=
  if x1 = x2 ∧ y1 = y2 then true
  else
    let dx := ((x2 : Int) - (x1 : Int)).natAbs
    let dy := ((y2 : Int) - (y1 : Int)).natAbs
    let sx : Int := if x1 < x2 then 1 else -1
    let sy : Int := if y1 < y2 then 1 else -1
    bresLoop g (x1 : Int) (y1 : Int) (x2 : Int) (y2 : Int) (dx : Int) (dy : Int) sx sy
      (dx + dy + 1) ((dx : Int) - (dy : Int)) (x1 : Int) (y1 : Int)

/-- One `*damage_map.entry(target_id).or_insert(0) += 1` on the insertion
ordered association list standing in for the `HashMap`. -/
def bumpDamage : List (Nat × Nat) → Nat → List (Nat × Nat)
  | List.nil, id => [(id, 1)]
  | List.cons e rest, id =>
      if e.1 = id then List.cons (e.1, e.2 + 1) rest
      else List.cons e (bumpDamage rest id)

/-- The damage-detection pass of `Grid::process_killer_cells`: the target id
of every (alive attacker, Killer cell, neighbour) hit, in scan order. -/
def Grid.killDetections (g : Grid) : List Nat :=
  g.organisms.flatMap fun org =>
    if org.is_alive then
      org.cells.flatMap fun cell =>
        if cell.state = CellState.Killer then
          let c := org.get_cell_position cell
          adjacents.filterMap fun d =>
            let nx := clampU g.width (i32ofU32 c.1 + d.1)
            let ny := clampU g.height (i32ofU32 c.2 + d.2)
            match g.get_cell nx ny with
            | some target_cell =>
              match target_cell.owner with
              | some target_id =>
                if target_id ≠ org.id ∧ target_cell.state ≠ CellState.Armor then
                  some target_id
                else none
              | none => none
            | none => none
        else List.nil
    else List.nil

/-- Damage application of `process_killer_cells` for one map entry. -/
def applyDamage (insta_kill : Bool) (damage : Nat) (o : Organism) : Organism :=
  if insta_kill then { o with is_alive := false } else Organism.harm^[damage] o

/-- Application of one damage-map entry (`if let Some(index) = ...position(...)`
followed by the insta-kill or repeated-`harm` branch). -/
def applyEntry (insta_kill : Bool) (orgs : List Organism) (e : Nat × Nat) : List Organism :=
  match orgs.findIdx? (fun o => o.id = e.1) with
  | none => orgs
  | some index => listModify (applyDamage insta_kill e.2) index orgs

/-- Process killer cells damaging other organisms (`Grid::process_killer_cells`). -/
def Grid.process_killer_cells (g : Grid) : Grid :=
  let damage_map := g.killDetections.foldl bumpDamage List.nil
  { g with organisms := damage_map.foldl (applyEntry g.insta_kill) g.organisms }

/-- The food tiles detected by one organism's Mouth cells (`process_eating`
collection loop), in scan order; one entry per (Mouth cell, direction) hit. -/
def Grid.mouthHits (g : Grid) (org : Organism) : List (Nat × Nat) :=
  org.cells.flatMap fun cell =>
    if cell.state = CellState.Mouth then
      let c := org.get_cell_position cell
      adjacents.filterMap fun d =>
        let nx := clampU g.width (i32ofU32 c.1 + d.1)
        let ny := clampU g.height (i32ofU32 c.2 + d.2)
        if g.has_food_at nx ny then some (nx, ny) else none
    else List.nil

/-- Process eating (`Grid::process_eating`): collect all (organism, food
tile) detections against the pre-phase grid, then apply all
`food_collected` increments, then clear all recorded food tiles. -/
def Grid.process_eating (g : Grid) : Grid :=
  let credited := g.organisms.map fun org =>
    if org.is_alive then
      { org with food_collected := org.food_collected + (g.mouthHits org).length }
    else org
  let food_eaten := g.organisms.flatMap fun org =>
    if org.is_alive then g.mouthHits org else List.nil
  let g1 := { g with organisms := credited }
  food_eaten.foldl (fun gg (p : Nat × Nat) => gg.set_cell p.1 p.2 CellState.Empty none) g1

/-- One shell of candidate offsets at the given distance
(`get_alternative_positions` inner double loop). -/
def Grid.altRing (g : Grid) (base_x base_y : Nat) (distance : Nat) : List (Nat × Nat) :=
  let di := (distance : Int)
  ((List.range (2 * distance + 1)).flatMap fun ix =>
    (List.range (2 * distance + 1)).filterMap fun iy =>
      let dx := (ix : Int) - di
      let dy := (iy : Int) - di
      if dx.natAbs = distance ∨ dy.natAbs = distance then
        let new_x := maxZeroU (i32ofU32 base_x + dx)
        let new_y := maxZeroU (i32ofU32 base_y + dy)
        if new_x < g.width ∧ new_y < g.height then some (new_x, new_y) else none
      else none)

/-- Candidate fallback positions for a blocked offspring
(`Grid::get_alternative_positions`): shells of increasing distance, stopping
once at least 40 positions were collected. -/
def Grid.get_alternative_positions (g : Grid) (organism : Organism) : List (Nat × Nat) :=
  (List.range' 1 14).foldl
    (fun (positions : List (Nat × Nat)) distance =>
      if positions.length ≥ 40 then positions
      else positions ++ g.altRing organism.x organism.y distance)
    List.nil

/-- State threaded through the candidate loop of `process_reproduction`:
the (parent-mutated) registry, the id counter, the accepted offspring
queue, and the RNG. -/
def ReproState : Type := List Organism × Nat × List Organism × Rng

/-- Body of the candidate loop of `Grid::process_reproduction` for one
eligible organism index.  The grid argument supplies the (unchanged during
the loop) tile matrix and settings; `current` is the registry length
captured before the loop. -/
def Grid.reproStep (g : Grid) (current : Nat) (st : ReproState) (org_idx : Nat) :
    ReproState :=
  let orgs := st.1
  let nid := st.2.1
  let newOrgs := st.2.2.1
  let r := st.2.2.2
  if current + newOrgs.length < g.max_organisms ∨ g.max_organisms = 0 then
    let parent := orgs.getD org_idx default
    let parent_x := parent.x
    let parent_y := parent.y
    let pRep := parent.try_reproduce r
    let orgs1 := listModify (fun _ => pRep.2.1) org_idx orgs
    match pRep.1 with
    | none => (orgs1, nid, newOrgs, pRep.2.2)
    | some offspring0 =>
      let offspring := { offspring0 with id := nid }
      if g.is_position_clear_for_organism offspring ∧
         g.is_straight_path_clear parent_x parent_y offspring.x offspring.y then
        (orgs1, nid + 1, newOrgs ++ [offspring], pRep.2.2)
      else
        let alternative_positions := g.get_alternative_positions offspring
        match alternative_positions.find? (fun (p : Nat × Nat) =>
            g.is_position_clear_for_organism { offspring with x := p.1, y := p.2 } &&
            g.is_straight_path_clear parent_x parent_y p.1 p.2) with
        | some p =>
            (orgs1, nid + 1, newOrgs ++ [{ offspring with x := p.1, y := p.2 }], pRep.2.2)
        | none => (orgs1, nid + 1, newOrgs, pRep.2.2)
  else st

/-- Reproduction phase (`Grid::process_reproduction`). -/
def Grid.process_reproduction (g : Grid) (rng : Rng) : Grid × Rng :=
  let current := g.organisms.length
  let reproduction_candidates :=
    (List.range g.organisms.length).filter fun i => (g.organisms.getD i default).is_alive
  let st := reproduction_candidates.foldl (g.reproStep current)
    (g.organisms, g.next_organism_id, List.nil, rng)
  let g1 := { g with organisms := st.1, next_organism_id := st.2.1 }
  let g2 := st.2.2.1.foldl (fun gg org => (gg.add_organism org).1) g1
  (g2, st.2.2.2)

/-- The grid-occupancy closure `is_position_clear` captured by
`update_organisms` for the per-organism updates (reads the footprint
cleared tile matrix). -/
def Grid.closureClear (g : Grid) (x y : Nat) : Bool :=
  if x ≥ g.width ∨ y ≥ g.height then false
  else
    let cell := g.cellAt x y
    cell.state = CellState.Empty ∨ cell.state = CellState.Food

/-- The `has_food_at` closure captured by `update_organisms`. -/
def Grid.closureFood (g : Grid) (x y : Nat) : Bool :=
  if x ≥ g.width ∨ y ≥ g.height then false
  else (g.cellAt x y).state = CellState.Food

/-- Footprint clearing of `update_organisms`: every alive organism's
in-bounds cell positions are collected and those still owned by that
organism are reset to Empty (a raw tile write, not `set_cell`, so pixels
are not touched). -/
def Grid.clearFootprints (g : Grid) : Grid :=
  let cells_to_clear := g.organisms.flatMap fun org =>
    if org.is_alive then
      org.cells.filterMap fun cell =>
        let p := org.get_cell_position cell
        if p.1 < g.width ∧ p.2 < g.height then some (p.1, p.2, org.id) else none
    else List.nil
  cells_to_clear.foldl
    (fun gg (t : Nat × Nat × Nat) =>
      let idx := t.2.1 * gg.width + t.1
      if (gg.cells.getD idx default).owner = some t.2.2 then
        { gg with cells := gg.cells.set idx { state := CellState.Empty, owner := none } }
      else gg) g

/-- The per-organism update loop of `update_organisms`, against the
footprint-cleared grid whose occupancy the captured closures read. -/
def Grid.updateAll (g : Grid) (lifespan_multiplier : Nat) (rng : Rng) :
    List Organism × Rng :=
  g.organisms.foldl
    (fun (p : List Organism × Rng) org =>
      if ¬ org.is_alive then (p.1 ++ [org], p.2)
      else
        let pu := org.update g.width g.height g.closureClear g.closureFood
          lifespan_multiplier p.2
        (p.1 ++ [pu.1], pu.2))
    (List.nil, rng)

/-- Restamping of `update_organisms`: every alive organism's in-bounds cell
positions are written back through `set_cell` with ownership. -/
def Grid.restamp (g : Grid) : Grid :=
  let cells_to_set := g.organisms.flatMap fun org =>
    if org.is_alive then
      org.cells.filterMap fun cell =>
        let p := org.get_cell_position cell
        if p.1 < g.width ∧ p.2 < g.height then some (p.1, p.2, cell.state, org.id)
        else none
    else List.nil
  cells_to_set.foldl
    (fun gg (t : Nat × Nat × CellState × Nat) =>
      gg.set_cell t.1 t.2.1 t.2.2.1 (some t.2.2.2)) g

/-- Organism update phase (`Grid::update_organisms`): eating, combat,
footprint clearing, the per-organism updates against the cleared grid,
restamping, reproduction, and dead-organism cleanup.  The source calls
`Organism::update` without its `lifespan_multiplier` argument (the call
does not type-check as written); the grid's `lifespan_multiplier` field is
passed, as the signature of `Organism::update` requires. -/
def Grid.update_organisms (g : Grid) (rng : Rng) : Grid × Rng :=
  let g1 := g.process_eating
  let g2 := g1.process_killer_cells
  let g3 := g2.clearFootprints
  let upd := g3.updateAll g.lifespan_multiplier rng
  let g4 := { g3 with organisms := upd.1 }
  let g5 := g4.restamp
  let pr := g5.process_reproduction upd.2
  (pr.1.remove_dead_organisms, pr.2)

/-- The environmental food-growth double loop of `step`: each Empty tile
draws once and may become Food. -/
def Grid.growFood (g : Grid) (rng : Rng) : Grid × Rng :=
  (List.range g.height).foldl
    (fun (p : Grid × Rng) y =>
      (List.range p.1.width).foldl
        (fun (q : Grid × Rng) x =>
          let idx := y * q.1.width + x
          if (q.1.cells.getD idx default).state = CellState.Empty then
            let pb := drawBool q.2
            if pb.1 then (q.1.set_cell x y CellState.Food none, pb.2) else (q.1, pb.2)
          else q) p) (g, rng)

/-- The producer-food collection loop of `step`: Food offers from alive
organisms' Producer cells into Empty neighbours, drawn against the
post-growth grid, collected before being written. -/
def Grid.producerFood (g : Grid) (rng : Rng) : List (Nat × Nat) × Rng :=
  g.organisms.foldl
    (fun (p : List (Nat × Nat) × Rng) org =>
      if org.is_alive then
        org.cells.foldl
          (fun (q : List (Nat × Nat) × Rng) cell =>
            if cell.state = CellState.Producer then
              let c := org.get_cell_position cell
              adjacents.foldl
                (fun (s : List (Nat × Nat) × Rng) d =>
                  let nx := clampU g.width (i32ofU32 c.1 + d.1)
                  let ny := clampU g.height (i32ofU32 c.2 + d.2)
                  match g.get_cell nx ny with
                  | some cc =>
                    if cc.state = CellState.Empty then
                      let pb := drawBool s.2
                      if pb.1 then (s.1 ++ [(nx, ny)], pb.2) else (s.1, pb.2)
                    else s
                  | none => s) q
            else q) p
      else p)
    (List.nil, rng)

/-- Main step function to update the entire simulation (`Grid::step`):
organism pipeline, random environmental food growth, producer food, and
pixel sync. -/
def Grid.step (g : Grid) (rng : Rng) : Grid × Rng :=
  let p1 := g.update_organisms rng
  let p2 := p1.1.growFood p1.2
  let collect := p2.1.producerFood p2.2
  let g3 := collect.1.foldl
    (fun gg (p : Nat × Nat) => gg.set_cell p.1 p.2 CellState.Food none) p2.1
  ({ g3 with pixels := g3.cells.map fun c => c.state.to_color }, collect.2)

/-- Grid states reachable through the public interface: construction,
`add_organism` (any `Organism` value, as in the source where the type's
fields are public), the `set_max_organisms` setter exposed by the wasm
wrapper (`WasmGrid::set_max_organisms`), and `step`. -/
inductive Reachable : Grid → Prop
  | new : ∀ w h, Reachable (Grid.new w h)
  | add : ∀ g org, Reachable g → Reachable (g.add_organism org).1
  | set_max : ∀ g m, Reachable g → Reachable { g with max_organisms := m }
  | step : ∀ g rng, Reachable g → Reachable (g.step rng).1


/-! Concrete fixtures used by witnesses and counterexamples. -/

/-- A single-Mouth body plan at the anchor. -/
def mouthOnly : List OrganismCell := [{ state := CellState.Mouth, x := 0, y := 0, direction := none }]

/-- A stationary single-Mouth organism fixture. -/
def mkMouthOrg (id x y : Nat) : Organism :=
  { id := id, x := x, y := y, rotation := Direction.Up, move_direction := Direction.Up,
    cells := mouthOnly, food_collected := 0, health := 1, lifetime := 0,
    mutability := 5, move_range := 4, move_counter := 0, is_alive := true }

/-- Record-update on `next_organism_id` does not affect placement validation. -/
theorem is_position_clear_for_organism_next_id (g : Grid) (n : Nat) (org : Organism) :
    ({ g with next_organism_id := n } : Grid).is_position_clear_for_organism org =
      g.is_position_clear_for_organism org := rfl

/-- C1: if `add_organism` returns `false`, the grid's tile matrix (cells)
and organism registry are unchanged from their values before the call. -/
theorem add_organism_false_leaves_grid_unchanged (g : Grid) (org : Organism)
    (h : (g.add_organism org).2 = false) :
    (g.add_organism org).1.cells = g.cells ∧
    (g.add_organism org).1.organisms = g.organisms := by
  unfold Grid.add_organism at h ⊢
  by_cases hcap : g.organisms.length ≥ g.max_organisms ∧ g.max_organisms > 0
  · simp [hcap]
  · simp only [if_neg hcap] at h ⊢
    by_cases hcp :
        (if org.id = 0 then { g with next_organism_id := g.next_organism_id + 1 } else g).is_position_clear_for_organism
          (if org.id = 0 then { org with id := g.next_organism_id } else org) = true
    · simp only [hcp, if_true] at h
      exact absurd h (by decide)
    · simp only [Bool.not_eq_true] at hcp
      simp only [hcp, Bool.false_eq_true, if_false]
      by_cases hid : org.id = 0 <;> simp [hid]

/-- C1 witness: a 1-by-1 grid rejects an organism anchored out of bounds,
leaving cells and registry unchanged. -/
theorem add_organism_false_leaves_grid_unchanged_witness :
    ((Grid.new 1 1).add_organism (mkMouthOrg 1 5 5)).2 = false ∧
    ((Grid.new 1 1).add_organism (mkMouthOrg 1 5 5)).1.cells = (Grid.new 1 1).cells ∧
    ((Grid.new 1 1).add_organism (mkMouthOrg 1 5 5)).1.organisms = (Grid.new 1 1).organisms :=
  ⟨by decide, add_organism_false_leaves_grid_unchanged (Grid.new 1 1) (mkMouthOrg 1 5 5) (by decide)⟩

/-- C9: every out-of-bounds query returns its safe default: `get_cell`
returns `none`, `is_position_clear` and `has_food_at` return `false`, and
`get_pixel` returns color 0. -/
theorem out_of_bounds_queries_safe_defaults (g : Grid) (x y : Nat)
    (h : g.width ≤ x ∨ g.height ≤ y) :
    g.get_cell x y = none ∧ g.is_position_clear x y = false ∧
    g.has_food_at x y = false ∧ g.get_pixel x y = 0 := by
  have hx : ¬ (x < g.width ∧ y < g.height) := by
    rcases h with h | h
    · exact fun hc => absurd hc.1 (Nat.not_lt.mpr h)
    · exact fun hc => absurd hc.2 (Nat.not_lt.mpr h)
  refine ⟨?_, ?_, ?_, ?_⟩ <;>
    simp [Grid.get_cell, Grid.is_position_clear, Grid.has_food_at, Grid.get_pixel, hx]

/-- C9 witness: instantiated on a 3-by-2 grid at coordinate (3, 0). -/
theorem out_of_bounds_queries_safe_defaults_witness :
    (Grid.new 3 2).get_cell 3 0 = none ∧ (Grid.new 3 2).is_position_clear 3 0 = false ∧
    (Grid.new 3 2).has_food_at 3 0 = false ∧ (Grid.new 3 2).get_pixel 3 0 = 0 :=
  out_of_bounds_queries_safe_defaults (Grid.new 3 2) 3 0 (Or.inl (by decide))

/-- C10: `add_organism` on an organism with id 0, below the population cap,
increments `next_organism_id` even when placement is rejected and the call
returns `false`. -/
theorem failed_placement_consumes_organism_id (g : Grid) (org : Organism)
    (hcap : ¬ (g.organisms.length ≥ g.max_organisms ∧ g.max_organisms > 0))
    (hid : org.id = 0)
    (hplace : g.is_position_clear_for_organism { org with id := g.next_organism_id } = false) :
    (g.add_organism org).2 = false ∧
    (g.add_organism org).1.next_organism_id = g.next_organism_id + 1 := by
  unfold Grid.add_organism
  simp only [if_neg hcap, hid, if_true]
  rw [is_position_clear_for_organism_next_id, hplace]
  simp

/-- C10 witness: a fresh 1-by-1 grid rejects an id-0 organism anchored out
of bounds but still advances the id counter from 0 to 1. -/
theorem failed_placement_consumes_organism_id_witness :
    ((Grid.new 1 1).add_organism (mkMouthOrg 0 5 5)).2 = false ∧
    ((Grid.new 1 1).add_organism (mkMouthOrg 0 5 5)).1.next_organism_id = 1 :=
  failed_placement_consumes_organism_id (Grid.new 1 1) (mkMouthOrg 0 5 5)
    (by decide) (by decide) (by decide)

/-- C7: an alive organism whose incremented lifetime meets
`cells.len() * lifespan_multiplier` is marked dead by `update` and the rest
of its update (feeding, moving, rotating) is skipped: only `lifetime` and
`is_alive` change, and no RNG is consumed. -/
theorem age_death_after_update (o : Organism) (gw gh : Nat)
    (clear food : Nat → Nat → Bool) (mult : Nat) (rng : Rng)
    (halive : o.is_alive = true)
    (hage : o.lifetime + 1 ≥ o.cells.length * mult) :
    o.update gw gh clear food mult rng =
      ({ o with lifetime := o.lifetime + 1, is_alive := false }, rng) := by
  have h2 : max (o.cells.length * mult) 1 ≤ o.lifetime + 1 :=
    max_le hage (Nat.succ_le_succ (Nat.zero_le _))
  unfold Organism.update Organism.max_lifespan
  simp [halive, h2]

/-- C7 witness: a one-cell organism with `lifespan_multiplier = 1` dies on
its first update. -/
theorem age_death_after_update_witness :
    (mkMouthOrg 1 0 0).is_alive = true ∧
    ((mkMouthOrg 1 0 0).update 1 1 (fun _ _ => false) (fun _ _ => false) 1 []).1.is_alive = false := by
  refine ⟨rfl, ?_⟩
  rw [age_death_after_update (mkMouthOrg 1 0 0) 1 1 _ _ 1 [] rfl (by decide)]

/-- A 2-by-1 grid whose tile (1,0) holds Food, with the default
`food_blocks_reproduction = true`. -/
def gC4 : Grid := (Grid.new 2 1).set_cell 1 0 CellState.Food none

/-- C4: `add_organism` accepts a body cell landing on a Food tile even
though `food_blocks_reproduction = true` — the source's second validation
test (`state != Empty && state != Food`) lets Food pass regardless of the
flag, so the flag never rejects a placement, contrary to the claim and to
the code's own comments around the `food_blocks_reproduction` rule. -/
theorem add_organism_accepts_food_despite_blocking_flag :
    gC4.food_blocks_reproduction = true ∧
    gC4.has_food_at 1 0 = true ∧
    (gC4.add_organism (mkMouthOrg 1 1 0)).2 = true ∧
    (gC4.add_organism (mkMouthOrg 1 1 0)).1.organisms.length = 1 := by decide

/-- A single-Mouth parent holding exactly the food needed to reproduce. -/
def parentC3 : Organism := { mkMouthOrg 5 4 4 with food_collected := 1 }

/-- A 9-by-9 grid holding only `parentC3`. -/
def gC3 : Grid := ((Grid.new 9 9).add_organism parentC3).1

/-- C3: `new_from_parent` constructs offspring with `health = 0` while
`is_alive = true` (it never recomputes health from the cell count, unlike
`add_cell`), and the reproduction phase registers such an organism, so the
registry reachably contains an alive organism violating
`0 < health ≤ len(cells)`. -/
theorem offspring_born_alive_with_zero_health :
    ((Organism.new_from_parent 7 3 3 parentC3 [0, 0, 5]).1.health = 0 ∧
     (Organism.new_from_parent 7 3 3 parentC3 [0, 0, 5]).1.is_alive = true ∧
     0 < (Organism.new_from_parent 7 3 3 parentC3 [0, 0, 5]).1.cells.length) ∧
    (∃ o ∈ (gC3.process_reproduction []).1.organisms,
      o.is_alive = true ∧ o.health = 0 ∧ 0 < o.cells.length) := by decide

/-- Element swaps preserve list length. -/
theorem listSwap_length {α : Type} [Inhabited α] (l : List α) (i j : Nat) :
    (listSwap l i j).length = l.length := by
  unfold listSwap
  split <;> simp

/-- The shuffle pass of `try_reproduce` preserves list length. -/
theorem shuffleList_length {α : Type} [Inhabited α] (l : List α) (rng : Rng) :
    (shuffleList l rng).1.length = l.length := by
  unfold shuffleList
  have key : ∀ (idxs : List Nat) (p : List α × Rng),
      ((idxs.foldl (fun (p : List α × Rng) i =>
          let pj := drawRange 0 l.length p.2
          (listSwap p.1 i pj.1, pj.2)) p).1.length = p.1.length) := by
    intro idxs
    induction idxs with
    | nil => intro p; rfl
    | cons a t ih =>
      intro p
      rw [List.foldl_cons, ih]
      exact listSwap_length _ _ _
  exact key _ _

/-- C5 (amended): `try_reproduce` subtracts the reproduction cost from the
parent as soon as the food threshold is met, before any placement check,
and always returns an offspring candidate in that case. -/
theorem try_reproduce_deducts_cost_upfront (o : Organism) (rng : Rng)
    (h : o.food_needed_to_reproduce ≤ o.food_collected) :
    (o.try_reproduce rng).2.1.food_collected =
      o.food_collected - o.food_needed_to_reproduce ∧
    (o.try_reproduce rng).1.isSome = true := by
  unfold Organism.try_reproduce
  rw [if_pos h]
  dsimp only
  split
  next heq =>
    have hl := shuffleList_length reproduceDirections rng
    rw [heq] at hl
    simp [reproduceDirections] at hl
  next d rest heq =>
    split
    · exact ⟨rfl, rfl⟩
    · split
      · exact ⟨rfl, rfl⟩
      · exact ⟨rfl, rfl⟩

/-- A single-Mouth parent on a 1-by-1 grid with exactly the food needed. -/
def parentC5 : Organism := { mkMouthOrg 1 0 0 with food_collected := 1 }

/-- The 1-by-1 grid holding only `parentC5`: every offspring candidate
position is either out of bounds or occupied by the parent. -/
def gC5 : Grid := ((Grid.new 1 1).add_organism parentC5).1

/-- C5 counterexample: on `gC5` the reproduction phase accepts no offspring
candidate (the registry keeps exactly one organism), yet the parent's
`food_collected` drops from 1 to 0 — the cost is not restored on failure. -/
theorem reproduction_cost_lost_on_failed_placement :
    parentC5.food_collected = 1 ∧
    parentC5.food_needed_to_reproduce ≤ parentC5.food_collected ∧
    gC5.organisms = [parentC5] ∧
    (gC5.process_reproduction []).1.organisms.length = 1 ∧
    ((gC5.process_reproduction []).1.organisms.getD 0 default).food_collected = 0 := by
  decide

/-- C5 amended witness: instantiated on `parentC5`, whose cost 1 is
deducted up front. -/
theorem try_reproduce_deducts_cost_upfront_witness :
    parentC5.food_needed_to_reproduce ≤ parentC5.food_collected ∧
    (parentC5.try_reproduce []).2.1.food_collected = 0 ∧
    (parentC5.try_reproduce []).1.isSome = true := by
  refine ⟨by decide, ?_, (try_reproduce_deducts_cost_upfront parentC5 [] (by decide)).2⟩
  rw [(try_reproduce_deducts_cost_upfront parentC5 [] (by decide)).1]
  decide

/-- Writes through `set_cell` do not change the grid dimensions. -/
theorem set_cell_width (g : Grid) (x y : Nat) (s : CellState) (o : Option Nat) :
    (g.set_cell x y s o).width = g.width := by
  unfold Grid.set_cell
  split <;> rfl

/-- Writes through `set_cell` do not change the grid dimensions. -/
theorem set_cell_height (g : Grid) (x y : Nat) (s : CellState) (o : Option Nat) :
    (g.set_cell x y s o).height = g.height := by
  unfold Grid.set_cell
  split <;> rfl

/-- Writes through `set_cell` do not change the organism registry. -/
theorem set_cell_organisms (g : Grid) (x y : Nat) (s : CellState) (o : Option Nat) :
    (g.set_cell x y s o).organisms = g.organisms := by
  unfold Grid.set_cell
  split <;> rfl

/-- Writes through `set_cell` do not change the population cap. -/
theorem set_cell_max_organisms (g : Grid) (x y : Nat) (s : CellState) (o : Option Nat) :
    (g.set_cell x y s o).max_organisms = g.max_organisms := by
  unfold Grid.set_cell
  split <;> rfl

/-- An in-bounds `set_cell` of an empty tile is observable through `get_cell`. -/
theorem get_cell_set_cell_empty (g : Grid) (x y : Nat) (hx : x < g.width) (hy : y < g.height) :
    (g.set_cell x y CellState.Empty none).get_cell x y =
      some { state := CellState.Empty, owner := none } := by
  unfold Grid.set_cell
  rw [if_pos ⟨hx, hy⟩]
  unfold Grid.get_cell Grid.cellAt
  dsimp only
  rw [if_pos ⟨hx, hy⟩, List.getD_eq_getElem?_getD, List.getElem?_set, if_pos rfl]
  split
  · rfl
  · rfl

/-- Tiles already holding the cleared value stay cleared under further
`set_cell` writes of that value. -/
theorem set_cell_empty_preserves (g : Grid) (x y a b : Nat)
    (h : g.get_cell a b = some { state := CellState.Empty, owner := none }) :
    (g.set_cell x y CellState.Empty none).get_cell a b =
      some { state := CellState.Empty, owner := none } := by
  unfold Grid.set_cell
  split
  next hb =>
    unfold Grid.get_cell Grid.cellAt at h ⊢
    by_cases hab : a < g.width ∧ b < g.height
    · rw [if_pos hab] at h
      dsimp only
      rw [if_pos hab, List.getD_eq_getElem?_getD, List.getElem?_set]
      by_cases he : y * g.width + x = b * g.width + a
      · rw [if_pos he]
        split
        · rfl
        · rfl
      · rw [if_neg he]
        rw [List.getD_eq_getElem?_getD] at h
        exact h
    · rw [if_neg hab] at h
      exact absurd h (by simp)
  next => exact h

/-- After folding `set_cell .. Empty none` over a list of positions, every
in-bounds position that is in the list (or already cleared) reads back as
the cleared tile. -/
theorem foldl_set_empty_get (pts : List (Nat × Nat)) :
    ∀ (g : Grid) (t : Nat × Nat), t.1 < g.width → t.2 < g.height →
    (t ∈ pts ∨ g.get_cell t.1 t.2 = some { state := CellState.Empty, owner := none }) →
    ((pts.foldl (fun gg (p : Nat × Nat) => gg.set_cell p.1 p.2 CellState.Empty none) g).get_cell
        t.1 t.2 = some { state := CellState.Empty, owner := none }) := by
  induction pts with
  | nil =>
    intro g t _ _ h
    rcases h with h | h
    · exact absurd h (List.not_mem_nil t)
    · exact h
  | cons p rest ih =>
    intro g t h1 h2 h
    rw [List.foldl_cons]
    apply ih
    · rw [set_cell_width]; exact h1
    · rw [set_cell_height]; exact h2
    · rcases h with h | h
      · rcases List.mem_cons.mp h with h | h
        · right
          rw [h]
          exact get_cell_set_cell_empty g p.1 p.2 (h ▸ h1) (h ▸ h2)
        · left; exact h
      · right; exact set_cell_empty_preserves _ _ _ _ _ h

/-- Folding tile writes leaves the organism registry unchanged. -/
theorem foldl_set_cell_empty_organisms (pts : List (Nat × Nat)) (g : Grid) :
    (pts.foldl (fun gg (p : Nat × Nat) => gg.set_cell p.1 p.2 CellState.Empty none) g).organisms
      = g.organisms := by
  induction pts generalizing g with
  | nil => rfl
  | cons p rest ih => rw [List.foldl_cons, ih, set_cell_organisms]

/-- Every position recorded by the Mouth scan holds food on the pre-phase grid. -/
theorem mouthHits_has_food {g : Grid} {org : Organism} {p : Nat × Nat}
    (hp : p ∈ g.mouthHits org) : g.has_food_at p.1 p.2 = true := by
  unfold Grid.mouthHits at hp
  rw [List.mem_flatMap] at hp
  obtain ⟨cell, _, hp⟩ := hp
  by_cases hm : cell.state = CellState.Mouth
  · rw [if_pos hm] at hp
    rw [List.mem_filterMap] at hp
    obtain ⟨d, _, hd⟩ := hp
    dsimp only at hd
    split at hd
    next hf =>
      cases hd
      exact hf
    next => exact absurd hd (by simp)
  · rw [if_neg hm] at hp
    exact absurd hp (List.not_mem_nil p)

/-- A positive `has_food_at` answer implies the coordinate is in bounds. -/
theorem has_food_at_bounds {g : Grid} {x y : Nat} (h : g.has_food_at x y = true) :
    x < g.width ∧ y < g.height := by
  unfold Grid.has_food_at Grid.get_cell at h
  by_cases hb : x < g.width ∧ y < g.height
  · exact hb
  · rw [if_neg hb] at h
    exact absurd h (by simp)

/-- The eating phase maps each organism to its credited copy. -/
theorem process_eating_organisms (g : Grid) :
    (g.process_eating).organisms = g.organisms.map fun org =>
      if org.is_alive then
        { org with food_collected := org.food_collected + (g.mouthHits org).length }
      else org := by
  unfold Grid.process_eating
  dsimp only
  rw [foldl_set_cell_empty_organisms]

/-- C6: when one Food tile is the single Mouth detection of each of two
different alive organisms, the eating phase credits both organisms'
`food_collected` with 1 and the tile reads back Empty afterwards (all
credits are recorded against the pre-phase grid before any recorded tile
is cleared). -/
theorem shared_food_tile_credits_both_organisms (g : Grid) (i j : Nat) (t : Nat × Nat)
    (hij : i ≠ j) (hi : i < g.organisms.length) (hj : j < g.organisms.length)
    (hai : (g.organisms.getD i default).is_alive = true)
    (haj : (g.organisms.getD j default).is_alive = true)
    (hmi : g.mouthHits (g.organisms.getD i default) = [t])
    (hmj : g.mouthHits (g.organisms.getD j default) = [t]) :
    ((g.process_eating).organisms.getD i default).food_collected
        = (g.organisms.getD i default).food_collected + 1 ∧
    ((g.process_eating).organisms.getD j default).food_collected
        = (g.organisms.getD j default).food_collected + 1 ∧
    (g.process_eating).get_cell t.1 t.2 = some { state := CellState.Empty, owner := none } := by
  have hmap : ∀ k, k < g.organisms.length →
      ((g.process_eating).organisms.getD k default) =
        (fun org =>
          if org.is_alive then
            { org with food_collected := org.food_collected + (g.mouthHits org).length }
          else org) (g.organisms.getD k default) := by
    intro k hk
    rw [process_eating_organisms,
      List.getD_eq_getElem _ _ (by simpa using hk), List.getElem_map,
      ← List.getD_eq_getElem _ _ hk]
  have hfood := @mouthHits_has_food g (g.organisms.getD i default) t
    (by rw [hmi]; exact List.mem_singleton.mpr rfl)
  have hbt := has_food_at_bounds hfood
  refine ⟨?_, ?_, ?_⟩
  · rw [hmap i hi]
    dsimp only
    rw [hai, if_pos rfl, hmi]
    rfl
  · rw [hmap j hj]
    dsimp only
    rw [haj, if_pos rfl, hmj]
    rfl
  · unfold Grid.process_eating
    dsimp only
    apply foldl_set_empty_get
    · exact hbt.1
    · exact hbt.2
    · left
      rw [List.mem_flatMap]
      refine ⟨g.organisms.getD i default, ?_, ?_⟩
      · rw [List.getD_eq_getElem _ _ hi]
        exact List.getElem_mem hi
      · rw [hai, if_pos rfl, hmi]
        exact List.mem_singleton.mpr rfl

/-- A 3-by-1 grid: Mouth of organism 1, Food, Mouth of organism 2. -/
def gC6 : Grid :=
  { width := 3, height := 1,
    pixels := [0, 0, 0],
    cells := [{ state := CellState.Mouth, owner := some 1 },
              { state := CellState.Food, owner := none },
              { state := CellState.Mouth, owner := some 2 }],
    organisms := [mkMouthOrg 1 0 0, mkMouthOrg 2 2 0],
    next_organism_id := 3, max_organisms := 1000, lifespan_multiplier := 100,
    insta_kill := false, food_blocks_reproduction := true }

/-- C6 witness: on `gC6`, both organisms flank the Food tile (1,0); after
the eating phase each holds 1 food and the tile is Empty. -/
theorem shared_food_tile_credits_both_organisms_witness :
    ((gC6.process_eating).organisms.getD 0 default).food_collected = 1 ∧
    ((gC6.process_eating).organisms.getD 1 default).food_collected = 1 ∧
    (gC6.process_eating).get_cell 1 0 = some { state := CellState.Empty, owner := none } :=
  shared_food_tile_credits_both_organisms gC6 0 1 (1, 0) (by decide) (by decide) (by decide)
    (by decide) (by decide) (by decide) (by decide)

/-- Harming an organism does not change its id. -/
theorem harm_id (o : Organism) : o.harm.id = o.id := by
  unfold Organism.harm
  dsimp only
  split <;> split <;> rfl

/-- Repeated harm does not change the id. -/
theorem harm_iterate_id (n : Nat) (o : Organism) : (Organism.harm^[n] o).id = o.id := by
  induction n with
  | zero => rfl
  | succ n ih =>
    rw [Function.iterate_succ_apply', harm_id]
    exact ih

/-- Damage application does not change the id. -/
theorem applyDamage_id (ik : Bool) (d : Nat) (o : Organism) :
    (applyDamage ik d o).id = o.id := by
  unfold applyDamage
  split
  · rfl
  · exact harm_iterate_id d o

/-- `listModify` preserves length. -/
theorem listModify_length {α : Type} (f : α → α) :
    ∀ (n : Nat) (l : List α), (listModify f n l).length = l.length := by
  intro n l
  induction l generalizing n with
  | nil => cases n <;> rfl
  | cons a as ih =>
    cases n with
    | zero => rfl
    | succ n => simpa [listModify] using ih n

/-- Reading back after an index update. -/
theorem listModify_getD {α : Type} [Inhabited α] (f : α → α) :
    ∀ (l : List α) (n i : Nat),
      (listModify f n l).getD i default =
        if n = i ∧ i < l.length then f (l.getD i default) else l.getD i default := by
  intro l
  induction l with
  | nil =>
    intro n i
    cases n <;> simp [listModify]
  | cons a as ih =>
    intro n i
    cases n with
    | zero =>
      cases i with
      | zero => simp [listModify]
      | succ i =>
        rw [if_neg (by omega)]
        rfl
    | succ n =>
      cases i with
      | zero =>
        rw [if_neg (by omega)]
        rfl
      | succ i =>
        show (listModify f n as).getD i default = _
        rw [ih n i]
        by_cases hc : n = i ∧ i < as.length
        · rw [if_pos hc, if_pos (by simp; omega)]
          rfl
        · rw [if_neg hc, if_neg (by simp; omega)]
          rfl

/-- Index updates by an id-preserving function keep the id sequence. -/
theorem listModify_map_id (ik : Bool) (d : Nat) :
    ∀ (l : List Organism) (n : Nat),
      (listModify (applyDamage ik d) n l).map Organism.id = l.map Organism.id := by
  intro l
  induction l with
  | nil => intro n; cases n <;> rfl
  | cons a as ih =>
    intro n
    cases n with
    | zero => simp [listModify, applyDamage_id]
    | succ n => simp [listModify, ih n]

/-- Applying one damage-map entry keeps the id sequence. -/
theorem applyEntry_map_id (ik : Bool) (orgs : List Organism) (e : Nat × Nat) :
    (applyEntry ik orgs e).map Organism.id = orgs.map Organism.id := by
  unfold applyEntry
  split
  · rfl
  · exact listModify_map_id ik e.2 orgs _

/-- Applying one damage-map entry keeps the registry length. -/
theorem applyEntry_length (ik : Bool) (orgs : List Organism) (e : Nat × Nat) :
    (applyEntry ik orgs e).length = orgs.length := by
  unfold applyEntry
  split
  · rfl
  · exact listModify_length _ _ _

/-- With distinct ids, one damage-map entry hits exactly the organism whose
id matches the entry key. -/
theorem applyEntry_getD (ik : Bool) (orgs : List Organism) (e : Nat × Nat) (i : Nat)
    (hnd : (orgs.map Organism.id).Nodup) (hi : i < orgs.length) :
    (applyEntry ik orgs e).getD i default =
      if e.1 = (orgs.getD i default).id then applyDamage ik e.2 (orgs.getD i default)
      else orgs.getD i default := by
  unfold applyEntry
  cases h : orgs.findIdx? (fun o => o.id = e.1) with
  | none =>
    rw [List.findIdx?_eq_none_iff] at h
    have hne := h (orgs.getD i default)
      (by rw [List.getD_eq_getElem _ _ hi]; exact List.getElem_mem hi)
    simp only [decide_eq_false_iff_not] at hne
    rw [if_neg fun hc => hne hc.symm]
  | some j =>
    rw [List.findIdx?_eq_some_iff_getElem] at h
    obtain ⟨hj, hpj, _⟩ := h
    simp only [decide_eq_true_eq] at hpj
    rw [listModify_getD]
    by_cases hii : e.1 = (orgs.getD i default).id
    · have hijids : orgs[j].id = orgs[i].id := by
        rw [← List.getD_eq_getElem _ default hi, ← hii, hpj]
      have hmj : j < (orgs.map Organism.id).length := by simpa using hj
      have hmi : i < (orgs.map Organism.id).length := by simpa using hi
      have heq2 : (orgs.map Organism.id)[j] = (orgs.map Organism.id)[i] := by
        rw [List.getElem_map, List.getElem_map]
        exact hijids
      have hji : j = i := (List.Nodup.getElem_inj_iff hnd).mp heq2
      rw [if_pos ⟨hji, hi⟩, if_pos hii]
    · have hji : ¬ (j = i ∧ i < orgs.length) := by
        rintro ⟨rfl, _⟩
        exact hii (by rw [← hpj, List.getD_eq_getElem _ default hi])
      rw [if_neg hji, if_neg hii]


def alget (m : List (Nat × Nat)) (k : Nat) : Option Nat :=
  (m.find? fun e => e.1 = k).map Prod.snd

theorem alget_bumpDamage :
    ∀ (m : List (Nat × Nat)) (id k : Nat),
      alget (bumpDamage m id) k =
        if k = id then some ((alget m k).getD 0 + 1) else alget m k := by
  intro m
  induction m with
  | nil =>
    intro id k
    by_cases h : k = id
    · subst h
      simp [bumpDamage, alget]
    · have hne : ¬ id = k := fun hc => h hc.symm
      rw [if_neg h]
      simp [bumpDamage, alget, List.find?_cons, hne]
  | cons a rest ih =>
    intro id k
    unfold bumpDamage
    by_cases ha : a.1 = id
    · rw [if_pos ha]
      by_cases hk : k = id
      · subst hk
        simp [alget, List.find?_cons, ha]
      · rw [if_neg hk]
        have ha2 : ¬ a.1 = k := fun hc => hk (hc.symm.trans ha)
        simp [alget, List.find?_cons, ha2]
    · rw [if_neg ha]
      by_cases hak : a.1 = k
      · have hk : ¬ k = id := fun hc => ha (hak.trans hc)
        rw [if_neg hk]
        simp [alget, List.find?_cons, hak]
      · have h1 : alget (a :: bumpDamage rest id) k = alget (bumpDamage rest id) k := by
          simp [alget, List.find?_cons, hak]
        have h2 : alget (a :: rest) k = alget rest k := by
          simp [alget, List.find?_cons, hak]
        rw [h1, ih, h2]

theorem alget_foldl_bump :
    ∀ (l : List Nat) (m : List (Nat × Nat)) (k : Nat),
      alget (l.foldl bumpDamage m) k =
        if l.count k = 0 then alget m k
        else some ((alget m k).getD 0 + l.count k) := by
  intro l
  induction l with
  | nil => intro m k; simp
  | cons c rest ih =>
    intro m k
    rw [List.foldl_cons, ih (bumpDamage m c) k, alget_bumpDamage m c k]
    by_cases hk : k = c
    · have hcnt : (c :: rest).count k = rest.count k + 1 := by
        simp [List.count_cons, hk.symm]
      rw [hcnt, if_neg (Nat.succ_ne_zero _), if_pos hk]
      by_cases h0 : rest.count k = 0
      · rw [if_pos h0, h0]
      · rw [if_neg h0]
        simp only [Option.getD_some]
        exact congrArg some (by omega)
    · have hcnt : (c :: rest).count k = rest.count k := by
        have hck : ¬ c = k := fun hc => hk hc.symm
        simp [List.count_cons, hck]
      rw [hcnt, if_neg hk]

theorem bump_keys_mem :
    ∀ (m : List (Nat × Nat)) (id k : Nat),
      k ∈ (bumpDamage m id).map Prod.fst ↔ k ∈ m.map Prod.fst ∨ k = id := by
  intro m
  induction m with
  | nil =>
    intro id k
    simp [bumpDamage]
  | cons a rest ih =>
    intro id k
    unfold bumpDamage
    by_cases ha : a.1 = id
    · rw [if_pos ha]
      simp only [List.map_cons, List.mem_cons]
      constructor
      · rintro (h | h)
        · exact Or.inl (Or.inl h)
        · exact Or.inl (Or.inr h)
      · rintro ((h | h) | h)
        · exact Or.inl h
        · exact Or.inr h
        · exact Or.inl (h.trans ha.symm)
    · rw [if_neg ha]
      simp only [List.map_cons, List.mem_cons, ih id k]
      tauto

theorem bump_keys_nodup :
    ∀ (m : List (Nat × Nat)) (id : Nat),
      (m.map Prod.fst).Nodup → ((bumpDamage m id).map Prod.fst).Nodup := by
  intro m
  induction m with
  | nil =>
    intro id _
    simp [bumpDamage]
  | cons a rest ih =>
    intro id hnd
    rw [List.map_cons, List.nodup_cons] at hnd
    unfold bumpDamage
    by_cases ha : a.1 = id
    · rw [if_pos ha]
      rw [List.map_cons, List.nodup_cons]
      exact hnd
    · rw [if_neg ha]
      rw [List.map_cons, List.nodup_cons]
      refine ⟨?_, ih id hnd.2⟩
      intro hmem
      rcases (bump_keys_mem rest id a.1).mp hmem with h | h
      · exact hnd.1 h
      · exact ha h

theorem foldl_bump_keys_nodup :
    ∀ (l : List Nat) (m : List (Nat × Nat)),
      (m.map Prod.fst).Nodup → ((l.foldl bumpDamage m).map Prod.fst).Nodup := by
  intro l
  induction l with
  | nil => intro m h; exact h
  | cons c rest ih =>
    intro m h
    rw [List.foldl_cons]
    exact ih (bumpDamage m c) (bump_keys_nodup m c h)

/-- Entry application skips an organism whose id occurs in no entry. -/
theorem scalar_fold_no_match (ik : Bool) :
    ∀ (entries : List (Nat × Nat)) (o : Organism),
      o.id ∉ entries.map Prod.fst →
      entries.foldl (fun o e => if e.1 = o.id then applyDamage ik e.2 o else o) o = o := by
  intro entries
  induction entries with
  | nil => intro o _; rfl
  | cons e rest ih =>
    intro o hmem
    rw [List.map_cons, List.mem_cons] at hmem
    push_neg at hmem
    rw [List.foldl_cons, if_neg fun hc => hmem.1 hc.symm]
    exact ih o hmem.2

/-- With pairwise-distinct keys, applying the whole damage map to one
organism applies exactly its own accumulated value, if any. -/
theorem scalar_fold_char (ik : Bool) :
    ∀ (entries : List (Nat × Nat)) (o : Organism),
      ((entries.map Prod.fst).Nodup) →
      entries.foldl (fun o e => if e.1 = o.id then applyDamage ik e.2 o else o) o =
        (match alget entries o.id with
         | some v => applyDamage ik v o
         | none => o) := by
  intro entries
  induction entries with
  | nil => intro o _; rfl
  | cons e rest ih =>
    intro o hnd
    rw [List.map_cons, List.nodup_cons] at hnd
    rw [List.foldl_cons]
    by_cases he : e.1 = o.id
    · rw [if_pos he]
      have hid : (applyDamage ik e.2 o).id ∉ rest.map Prod.fst := by
        rw [applyDamage_id, ← he]
        exact hnd.1
      rw [scalar_fold_no_match ik rest _ hid]
      have hfind : alget (e :: rest) o.id = some e.2 := by
        simp [alget, List.find?_cons, he]
      rw [hfind]
    · rw [if_neg he]
      have hfind : alget (e :: rest) o.id = alget rest o.id := by
        simp [alget, List.find?_cons, he]
      rw [hfind]
      exact ih o hnd.2

/-- With distinct registry ids, folding the damage map over the registry
acts pointwise on each organism through its own id. -/
theorem foldl_applyEntry_getD (ik : Bool) :
    ∀ (entries : List (Nat × Nat)) (orgs : List Organism) (i : Nat),
      (orgs.map Organism.id).Nodup → i < orgs.length →
      ((entries.foldl (applyEntry ik) orgs).getD i default =
        entries.foldl (fun o e => if e.1 = o.id then applyDamage ik e.2 o else o)
          (orgs.getD i default)) := by
  intro entries
  induction entries with
  | nil => intro orgs i _ _; rfl
  | cons e rest ih =>
    intro orgs i hnd hi
    rw [List.foldl_cons, List.foldl_cons]
    have hnd2 : ((applyEntry ik orgs e).map Organism.id).Nodup := by
      rw [applyEntry_map_id]; exact hnd
    have hi2 : i < (applyEntry ik orgs e).length := by
      rw [applyEntry_length]; exact hi
    rw [ih (applyEntry ik orgs e) i hnd2 hi2, applyEntry_getD ik orgs e i hnd hi]

/-- Total damage accumulated against one organism id in the combat scan. -/
def damageCount (g : Grid) (id : Nat) : Nat := g.killDetections.count id

/-- Per-organism effect of the combat phase, with distinct registry ids. -/
theorem process_killer_cells_getD (g : Grid) (i : Nat)
    (hnd : (g.organisms.map Organism.id).Nodup) (hi : i < g.organisms.length) :
    (g.process_killer_cells).organisms.getD i default =
      (if damageCount g ((g.organisms.getD i default).id) = 0 then g.organisms.getD i default
       else applyDamage g.insta_kill (damageCount g ((g.organisms.getD i default).id))
              (g.organisms.getD i default)) := by
  unfold Grid.process_killer_cells
  dsimp only
  rw [foldl_applyEntry_getD g.insta_kill _ g.organisms i hnd hi,
    scalar_fold_char g.insta_kill _ _ (foldl_bump_keys_nodup g.killDetections List.nil (by simp)),
    alget_foldl_bump g.killDetections List.nil ((g.organisms.getD i default).id)]
  unfold damageCount
  by_cases h0 : g.killDetections.count ((g.organisms.getD i default).id) = 0
  · simp only [if_pos h0]
    simp [alget]
  · simp only [if_neg h0]
    simp [alget]

/-- C8: combat damage is accumulated per target id over all alive
attackers' Killer-cell 4-neighborhoods (`killDetections` excludes hits on
the attacker's own tiles and hits on Armor tiles); with `insta_kill`, any
organism with nonzero accumulated damage is marked dead in the same phase
regardless of cell count; otherwise `harm()` is applied once per
accumulated damage point; zero-damage organisms are untouched. -/
theorem killer_damage_accumulation_and_application (g : Grid) (i : Nat)
    (hnd : (g.organisms.map Organism.id).Nodup) (hi : i < g.organisms.length) :
    (g.insta_kill = true → 0 < damageCount g ((g.organisms.getD i default).id) →
      ((g.process_killer_cells).organisms.getD i default).is_alive = false) ∧
    (g.insta_kill = false →
      (g.process_killer_cells).organisms.getD i default =
        Organism.harm^[damageCount g ((g.organisms.getD i default).id)]
          (g.organisms.getD i default)) ∧
    (damageCount g ((g.organisms.getD i default).id) = 0 →
      (g.process_killer_cells).organisms.getD i default = g.organisms.getD i default) := by
  refine ⟨?_, ?_, ?_⟩
  · intro hik hpos
    rw [process_killer_cells_getD g i hnd hi, if_neg (Nat.pos_iff_ne_zero.mp hpos)]
    simp [applyDamage, hik]
  · intro hik
    rw [process_killer_cells_getD g i hnd hi]
    by_cases h0 : damageCount g ((g.organisms.getD i default).id) = 0
    · rw [if_pos h0, h0]
      exact (Function.iterate_zero_apply _ _).symm
    · rw [if_neg h0]
      simp [applyDamage, hik]
  · intro h0
    rw [process_killer_cells_getD g i hnd hi, if_pos h0]

/-- A one-cell Killer organism fixture. -/
def killerOrg : Organism :=
  { mkMouthOrg 1 0 0 with
    cells := [{ state := CellState.Killer, x := 0, y := 0, direction := none }] }

/-- A 2-by-1 insta-kill grid: a Killer next to an unarmored Mouth organism. -/
def gC8 : Grid :=
  { width := 2, height := 1,
    pixels := [0, 0],
    cells := [{ state := CellState.Killer, owner := some 1 },
              { state := CellState.Mouth, owner := some 2 }],
    organisms := [killerOrg, mkMouthOrg 2 1 0],
    next_organism_id := 3, max_organisms := 1000, lifespan_multiplier := 100,
    insta_kill := true, food_blocks_reproduction := true }

/-- C8 witness: on `gC8` the unarmored neighbour accumulates damage 1 and
insta-kill marks it dead in the combat phase. -/
theorem killer_damage_accumulation_and_application_witness :
    (gC8.organisms.map Organism.id).Nodup ∧ 1 < gC8.organisms.length ∧
    gC8.insta_kill = true ∧ 0 < damageCount gC8 ((gC8.organisms.getD 1 default).id) ∧
    ((gC8.process_killer_cells).organisms.getD 1 default).is_alive = false :=
  ⟨by decide, by decide, rfl, by decide,
    (killer_damage_accumulation_and_application gC8 1 (by decide) (by decide)).1 rfl (by decide)⟩

/-- Folding a step function that preserves a predicate preserves it. -/
theorem foldl_preserve {α β : Type} (P : β → Prop) (f : β → α → β)
    (hf : ∀ b a, P b → P (f b a)) :
    ∀ (l : List α) (b : β), P b → P (l.foldl f b) := by
  intro l
  induction l with
  | nil => intro b h; exact h
  | cons a t ih =>
    intro b h
    rw [List.foldl_cons]
    exact ih _ (hf b a h)

/-- Stamping cells changes neither the registry nor the cap. -/
theorem placeCells_frame (org : Organism) (g : Grid) :
    (placeCells org g).organisms = g.organisms ∧
    (placeCells org g).max_organisms = g.max_organisms := by
  unfold placeCells
  exact foldl_preserve
    (fun gg : Grid => gg.organisms = g.organisms ∧ gg.max_organisms = g.max_organisms) _
    (by
      intro gg cell h
      dsimp only
      split
      · rw [set_cell_organisms, set_cell_max_organisms]
        exact h
      · exact h)
    org.cells g ⟨rfl, rfl⟩

/-- `add_organism` preserves the population bound and the cap value. -/
theorem add_organism_cap (g : Grid) (org : Organism)
    (hpos : 0 < g.max_organisms) (hle : g.organisms.length ≤ g.max_organisms) :
    (g.add_organism org).1.organisms.length ≤ g.max_organisms ∧
    (g.add_organism org).1.max_organisms = g.max_organisms := by
  unfold Grid.add_organism
  by_cases hcap : g.organisms.length ≥ g.max_organisms ∧ g.max_organisms > 0
  · rw [if_pos hcap]
    exact ⟨hle, rfl⟩
  · have hlt : g.organisms.length < g.max_organisms := by
      rcases Nat.lt_or_ge g.organisms.length g.max_organisms with h | h
      · exact h
      · exact absurd ⟨h, hpos⟩ hcap
    rw [if_neg hcap]
    dsimp only
    by_cases hid : org.id = 0
    · simp only [if_pos hid]
      split
      · have hf := placeCells_frame { org with id := g.next_organism_id }
          { g with next_organism_id := g.next_organism_id + 1 }
        refine ⟨?_, ?_⟩
        · show ((placeCells _ _).organisms ++ [_]).length ≤ g.max_organisms
          rw [List.length_append, hf.1]
          simpa using hlt
        · show (placeCells _ _).max_organisms = g.max_organisms
          rw [hf.2]
      · exact ⟨hle, rfl⟩
    · simp only [if_neg hid]
      split
      · have hf := placeCells_frame org g
        refine ⟨?_, ?_⟩
        · show ((placeCells _ _).organisms ++ [_]).length ≤ g.max_organisms
          rw [List.length_append, hf.1]
          simpa using hlt
        · show (placeCells _ _).max_organisms = g.max_organisms
          rw [hf.2]
      · exact ⟨hle, rfl⟩

/-- The eating phase preserves registry length and cap. -/
theorem process_eating_frame (g : Grid) :
    (g.process_eating).organisms.length = g.organisms.length ∧
    (g.process_eating).max_organisms = g.max_organisms := by
  constructor
  · rw [process_eating_organisms]
    exact List.length_map _ _
  · unfold Grid.process_eating
    dsimp only
    exact foldl_preserve (fun gg : Grid => gg.max_organisms = g.max_organisms) _
      (by
        intro gg p h
        rw [set_cell_max_organisms]
        exact h)
      _ _ rfl

/-- The combat phase preserves registry length and cap. -/
theorem process_killer_frame (g : Grid) :
    (g.process_killer_cells).organisms.length = g.organisms.length ∧
    (g.process_killer_cells).max_organisms = g.max_organisms := by
  unfold Grid.process_killer_cells
  dsimp only
  constructor
  · exact foldl_preserve (fun orgs : List Organism => orgs.length = g.organisms.length) _
      (by
        intro orgs e h
        rw [applyEntry_length]
        exact h)
      _ _ rfl
  · rfl

/-- Footprint clearing preserves registry and cap. -/
theorem clearFootprints_frame (g : Grid) :
    (g.clearFootprints).organisms = g.organisms ∧
    (g.clearFootprints).max_organisms = g.max_organisms := by
  unfold Grid.clearFootprints
  dsimp only
  exact foldl_preserve
    (fun gg : Grid => gg.organisms = g.organisms ∧ gg.max_organisms = g.max_organisms) _
    (by
      intro gg t h
      split
      · exact h
      · exact h)
    _ _ ⟨rfl, rfl⟩

/-- The per-organism update loop yields one updated organism per input. -/
theorem updateAll_length (g : Grid) (mult : Nat) (rng : Rng) :
    (g.updateAll mult rng).1.length = g.organisms.length := by
  unfold Grid.updateAll
  have key : ∀ (l : List Organism) (acc : List Organism × Rng),
      ((l.foldl (fun (p : List Organism × Rng) org =>
        if ¬ org.is_alive then (p.1 ++ [org], p.2)
        else
          let pu := org.update g.width g.height g.closureClear g.closureFood mult p.2
          (p.1 ++ [pu.1], pu.2)) acc).1.length = acc.1.length + l.length) := by
    intro l
    induction l with
    | nil => intro acc; simp
    | cons o t ih =>
      intro acc
      rw [List.foldl_cons, ih]
      dsimp only
      split
      · simp [List.length_append]
        omega
      · simp [List.length_append]
        omega
  rw [key]
  simp

/-- Restamping preserves registry and cap. -/
theorem restamp_frame (g : Grid) :
    (g.restamp).organisms = g.organisms ∧
    (g.restamp).max_organisms = g.max_organisms := by
  unfold Grid.restamp
  dsimp only
  exact foldl_preserve
    (fun gg : Grid => gg.organisms = g.organisms ∧ gg.max_organisms = g.max_organisms) _
    (by
      intro gg t h
      rw [set_cell_organisms, set_cell_max_organisms]
      exact h)
    _ _ ⟨rfl, rfl⟩

/-- Removing one organism never grows the registry and keeps the cap. -/
theorem remove_organism_frame (g : Grid) (org_id : Nat) :
    (g.remove_organism org_id).organisms.length ≤ g.organisms.length ∧
    (g.remove_organism org_id).max_organisms = g.max_organisms := by
  unfold Grid.remove_organism
  split
  · exact ⟨Nat.le_refl _, rfl⟩
  · split
    · exact ⟨Nat.le_refl _, rfl⟩
    · dsimp only
      have hgen : ∀ pts : List (Nat × Nat),
          ((pts.foldl (fun gg (p : Nat × Nat) =>
              gg.set_cell p.1 p.2 CellState.Food none) g).organisms = g.organisms ∧
           (pts.foldl (fun gg (p : Nat × Nat) =>
              gg.set_cell p.1 p.2 CellState.Food none) g).max_organisms = g.max_organisms) :=
        fun pts => foldl_preserve
          (fun gg : Grid => gg.organisms = g.organisms ∧ gg.max_organisms = g.max_organisms)
          (fun gg (p : Nat × Nat) => gg.set_cell p.1 p.2 CellState.Food none)
          (by
            intro gg p h
            rw [set_cell_organisms, set_cell_max_organisms]
            exact h)
          pts g ⟨rfl, rfl⟩
      constructor
      · rw [(hgen _).1]
        exact List.length_eraseIdx_le _ _
      · exact (hgen _).2

/-- Cleanup preserves a population bound and the cap. -/
theorem remove_dead_frame (g : Grid) (M : Nat)
    (hl : g.organisms.length ≤ M) (hm : g.max_organisms = M) :
    (g.remove_dead_organisms).organisms.length ≤ M ∧
    (g.remove_dead_organisms).max_organisms = M := by
  unfold Grid.remove_dead_organisms
  exact foldl_preserve
    (fun gg : Grid => gg.organisms.length ≤ M ∧ gg.max_organisms = M) _
    (by
      intro gg id h
      have hr := remove_organism_frame gg id
      exact ⟨hr.1.trans h.1, hr.2.trans h.2⟩)
    _ _ ⟨hl, hm⟩

/-- Each candidate-loop step keeps the registry length. -/
theorem reproStep_length (g : Grid) (cur : Nat) (st : ReproState) (idx : Nat) :
    (g.reproStep cur st idx).1.length = st.1.length := by
  unfold Grid.reproStep
  dsimp only
  split
  · split
    · rw [listModify_length]
    · split
      · rw [listModify_length]
      · split
        · rw [listModify_length]
        · rw [listModify_length]
  · rfl

/-- The reproduction phase preserves the population bound and the cap. -/
theorem process_reproduction_cap (g : Grid) (rng : Rng)
    (hpos : 0 < g.max_organisms) (hle : g.organisms.length ≤ g.max_organisms) :
    (g.process_reproduction rng).1.organisms.length ≤ g.max_organisms ∧
    (g.process_reproduction rng).1.max_organisms = g.max_organisms := by
  unfold Grid.process_reproduction
  dsimp only
  have hst : ∀ (cands : List Nat) (st0 : ReproState),
      st0.1.length = g.organisms.length →
      (cands.foldl (g.reproStep g.organisms.length) st0).1.length = g.organisms.length :=
    fun cands st0 h0 => foldl_preserve
      (fun st : ReproState => st.1.length = g.organisms.length)
      (g.reproStep g.organisms.length)
      (by
        intro st idx h
        rw [reproStep_length]
        exact h)
      cands st0 h0
  exact foldl_preserve
    (fun gg : Grid =>
      gg.organisms.length ≤ g.max_organisms ∧ gg.max_organisms = g.max_organisms) _
    (by
      intro gg o h
      have ha := add_organism_cap gg o (h.2 ▸ hpos) (le_of_le_of_eq h.1 h.2.symm)
      exact ⟨le_of_le_of_eq ha.1 h.2, ha.2.trans h.2⟩)
    _ _
    ⟨by
      rw [show (({ g with
            organisms := ((List.filter (fun i => (g.organisms.getD i default).is_alive)
                (List.range g.organisms.length)).foldl (g.reproStep g.organisms.length)
                (g.organisms, g.next_organism_id, List.nil, rng)).1,
            next_organism_id := ((List.filter (fun i => (g.organisms.getD i default).is_alive)
                (List.range g.organisms.length)).foldl (g.reproStep g.organisms.length)
                (g.organisms, g.next_organism_id, List.nil, rng)).2.1 } : Grid)).organisms =
          ((List.filter (fun i => (g.organisms.getD i default).is_alive)
              (List.range g.organisms.length)).foldl (g.reproStep g.organisms.length)
              (g.organisms, g.next_organism_id, List.nil, rng)).1 from rfl,
        hst _ _ rfl]
      exact hle, rfl⟩

/-- The organism pipeline preserves the population bound and the cap. -/
theorem update_organisms_cap (g : Grid) (rng : Rng)
    (hpos : 0 < g.max_organisms) (hle : g.organisms.length ≤ g.max_organisms) :
    (g.update_organisms rng).1.organisms.length ≤ g.max_organisms ∧
    (g.update_organisms rng).1.max_organisms = g.max_organisms := by
  unfold Grid.update_organisms
  dsimp only
  have h1 := process_eating_frame g
  have h2 := process_killer_frame g.process_eating
  have h3 := clearFootprints_frame g.process_eating.process_killer_cells
  have h4 := updateAll_length g.process_eating.process_killer_cells.clearFootprints
    g.lifespan_multiplier rng
  have hmax3 : g.process_eating.process_killer_cells.clearFootprints.max_organisms
      = g.max_organisms := by
    rw [h3.2, h2.2, h1.2]
  have hlen4 : (g.process_eating.process_killer_cells.clearFootprints.updateAll
      g.lifespan_multiplier rng).1.length ≤ g.max_organisms := by
    rw [h4]
    have : g.process_eating.process_killer_cells.clearFootprints.organisms.length
        = g.organisms.length := by
      rw [h3.1, h2.1, h1.1]
    rw [this]
    exact hle
  have h5 := restamp_frame
    { g.process_eating.process_killer_cells.clearFootprints with
      organisms := (g.process_eating.process_killer_cells.clearFootprints.updateAll
        g.lifespan_multiplier rng).1 }
  have hmax5 : ({ g.process_eating.process_killer_cells.clearFootprints with
      organisms := (g.process_eating.process_killer_cells.clearFootprints.updateAll
        g.lifespan_multiplier rng).1 } : Grid).restamp.max_organisms = g.max_organisms := by
    rw [h5.2]
    exact hmax3
  have hlen5 : ({ g.process_eating.process_killer_cells.clearFootprints with
      organisms := (g.process_eating.process_killer_cells.clearFootprints.updateAll
        g.lifespan_multiplier rng).1 } : Grid).restamp.organisms.length ≤
      ({ g.process_eating.process_killer_cells.clearFootprints with
      organisms := (g.process_eating.process_killer_cells.clearFootprints.updateAll
        g.lifespan_multiplier rng).1 } : Grid).restamp.max_organisms := by
    rw [h5.1, hmax5]
    exact hlen4
  have h6 := process_reproduction_cap
    ({ g.process_eating.process_killer_cells.clearFootprints with
      organisms := (g.process_eating.process_killer_cells.clearFootprints.updateAll
        g.lifespan_multiplier rng).1 } : Grid).restamp
    (g.process_eating.process_killer_cells.clearFootprints.updateAll
      g.lifespan_multiplier rng).2
    (by rw [hmax5]; exact hpos) hlen5
  have h7 := remove_dead_frame _ g.max_organisms (le_of_le_of_eq h6.1 hmax5)
    (h6.2.trans hmax5)
  exact h7

/-- Environmental food growth preserves registry and cap. -/
theorem growFood_frame (g : Grid) (rng : Rng) :
    (g.growFood rng).1.organisms = g.organisms ∧
    (g.growFood rng).1.max_organisms = g.max_organisms := by
  unfold Grid.growFood
  exact foldl_preserve
    (fun p : Grid × Rng =>
      p.1.organisms = g.organisms ∧ p.1.max_organisms = g.max_organisms) _
    (by
      intro p y hP
      exact foldl_preserve
        (fun q : Grid × Rng =>
          q.1.organisms = g.organisms ∧ q.1.max_organisms = g.max_organisms) _
        (by
          intro q x hQ
          dsimp only
          split
          · split
            · constructor
              · rw [set_cell_organisms]
                exact hQ.1
              · rw [set_cell_max_organisms]
                exact hQ.2
            · exact hQ
          · exact hQ)
        _ _ hP)
    _ _ ⟨rfl, rfl⟩

/-- C2 (amended): `step` preserves the population cap: whenever
`max_organisms > 0` and the registry already satisfies
`len(organisms) ≤ max_organisms`, both still hold after `step` (which
never modifies `max_organisms`).  The cap is preserved, not enforced:
`step` does not cull a registry that exceeds a newly lowered cap. -/
theorem step_preserves_population_cap (g : Grid) (rng : Rng)
    (hpos : 0 < g.max_organisms) (hle : g.organisms.length ≤ g.max_organisms) :
    (g.step rng).1.organisms.length ≤ g.max_organisms ∧
    (g.step rng).1.max_organisms = g.max_organisms := by
  unfold Grid.step
  dsimp only
  have h1 := update_organisms_cap g rng hpos hle
  have h2 := growFood_frame (g.update_organisms rng).1 (g.update_organisms rng).2
  have hff : ∀ pts : List (Nat × Nat),
      ((pts.foldl (fun gg (p : Nat × Nat) =>
          gg.set_cell p.1 p.2 CellState.Food none)
          ((g.update_organisms rng).1.growFood (g.update_organisms rng).2).1).organisms =
        ((g.update_organisms rng).1.growFood (g.update_organisms rng).2).1.organisms ∧
       (pts.foldl (fun gg (p : Nat × Nat) =>
          gg.set_cell p.1 p.2 CellState.Food none)
          ((g.update_organisms rng).1.growFood (g.update_organisms rng).2).1).max_organisms =
        ((g.update_organisms rng).1.growFood (g.update_organisms rng).2).1.max_organisms) :=
    fun pts => foldl_preserve
      (fun gg : Grid =>
        gg.organisms = ((g.update_organisms rng).1.growFood
          (g.update_organisms rng).2).1.organisms ∧
        gg.max_organisms = ((g.update_organisms rng).1.growFood
          (g.update_organisms rng).2).1.max_organisms)
      (fun gg (p : Nat × Nat) => gg.set_cell p.1 p.2 CellState.Food none)
      (by
        intro gg p h
        rw [set_cell_organisms, set_cell_max_organisms]
        exact h)
      pts _ ⟨rfl, rfl⟩
  constructor
  · rw [(hff _).1, h2.1]
    exact h1.1
  · rw [(hff _).2, h2.2]
    exact h1.2

/-- A 5-by-1 grid that received two organisms and then had its cap lowered
to 1 through the exposed setter. -/
def gC2base : Grid :=
  (((Grid.new 5 1).add_organism (mkMouthOrg 1 0 0)).1.add_organism (mkMouthOrg 2 3 0)).1

/-- The capped counterexample state for the population-cap claim. -/
def gC2 : Grid := { gC2base with max_organisms := 1 }

/-- C2 counterexample: a reachable state with `max_organisms = 1 > 0` but
two live organisms; `step()` does not cull the registry, so after the call
the population still exceeds the cap. -/
theorem population_cap_violated_after_step :
    Reachable gC2 ∧ gC2.max_organisms = 1 ∧ 0 < gC2.max_organisms ∧
    (gC2.step []).1.organisms.length = 2 ∧
    ¬ ((gC2.step []).1.organisms.length ≤ gC2.max_organisms) := by
  refine ⟨?_, by decide, by decide, by decide, by decide⟩
  exact Reachable.set_max gC2base 1
    (Reachable.add _ (mkMouthOrg 2 3 0) (Reachable.add _ (mkMouthOrg 1 0 0) (Reachable.new 5 1)))

/-- C2 amended witness: on the two-organism grid `gC6` (cap 1000) one
`step` keeps the population within the cap. -/
theorem step_preserves_population_cap_witness :
    0 < gC6.max_organisms ∧ gC6.organisms.length ≤ gC6.max_organisms ∧
    (gC6.step []).1.organisms.length ≤ gC6.max_organisms ∧
    (gC6.step []).1.max_organisms = gC6.max_organisms :=
  ⟨by decide, by decide,
    (step_preserves_population_cap gC6 [] (by decide) (by decide)).1,
    (step_preserves_population_cap gC6 [] (by decide) (by decide)).2⟩
